import Mathlib

/-!
Verification development for the pitch-deck assessment pipeline
(`app.py`).  The analysis core is embedded shallowly: the layered
response interpretation of `analyze_component` (markdown fence strip,
direct JSON parse, regex extraction, degraded fallbacks, transport
sentinel), the multi-format text extraction of `extract_text_from_file`
(with the format libraries abstracted as per-document outcomes), and the
summary metrics computed in `main` (average score, strengths and
weaknesses counts).  Python strings are modelled as lists of characters;
machine-level details (ASCII whitespace and digits) cover the fragment
the program exercises.
-/

namespace PitchDeckAssessment

/-- JSON values as returned by the Python `json` module on the inputs this
program feeds it.  Numbers are integer literals (the only numeric form the
response format and the regex layer of `app.py` deal in); objects are
insertion-ordered key/value lists built with last-wins update, as Python
dicts are. -/
inductive Json where
  | null : Json
  | bool : Bool → Json
  | num : Int → Json
  | str : String → Json
  | arr : List Json → Json
  | obj : List (String × Json) → Json

/-- Whitespace characters stripped by Python `str.strip` and matched by the
regex class `\s` (ASCII fragment). -/
def isPySpace (c : Char) : Bool :=
  c == ' ' || c == '\t' || c == '\n' || c == '\r' || c == '\x0b' || c == '\x0c'

/-- Python `str.strip()`: drop whitespace from both ends. -/
def pyStrip (l : List Char) : List Char :=
  ((l.dropWhile isPySpace).reverse.dropWhile isPySpace).reverse

/-- Python `str.startswith`: the second list is an initial run of the first. -/
def beginsWith : List Char → List Char → Bool
  | _, [] => true
  | [], _ :: _ => false
  | c :: cs, p :: ps => c == p && beginsWith cs ps

/-- Python `str.endswith`: the second list is a final run of the first. -/
def endsWithL (l p : List Char) : Bool :=
  beginsWith l.reverse p.reverse

/-- Whether `needle` occurs contiguously anywhere in `hay`. -/
def hasSub (hay needle : List Char) : Bool :=
  match hay with
  | [] => needle.isEmpty
  | _ :: t => beginsWith hay needle || hasSub t needle

/-- Match a literal run at the front, returning the remainder. -/
def dropLit (pat l : List Char) : Option (List Char) :=
  if beginsWith l pat then some (l.drop pat.length) else none

/-- Decimal value of a run of digit characters (Python `int` on the match). -/
def natOfDigits (ds : List Char) : Nat :=
  ds.foldl (fun a c => a * 10 + (c.toNat - '0'.toNat)) 0

/-- One attempt of the pattern from `app.py`
`"score"\s*:\s*(\d+)` anchored at the current position. -/
def scoreAt (l : List Char) : Option Nat :=
  (dropLit "\"score\"".toList l).bind fun r =>
    match r.dropWhile isPySpace with
    | ':' :: r1 =>
      let r2 := r1.dropWhile isPySpace
      let ds := r2.takeWhile Char.isDigit
      if ds.isEmpty then none else some (natOfDigits ds)
    | _ => none

/-- `re.search` for the score pattern: leftmost position where it matches. -/
def scoreSearch : List Char → Option Nat
  | [] => none
  | l@(_ :: t) =>
    match scoreAt l with
    | some n => some n
    | none => scoreSearch t

/-- One attempt of the pattern from `app.py`
`"feedback"\s*:\s*"([^"]+)"` anchored at the current position; returns the
captured group. -/
def feedbackAt (l : List Char) : Option (List Char) :=
  (dropLit "\"feedback\"".toList l).bind fun r =>
    match r.dropWhile isPySpace with
    | ':' :: r1 =>
      match r1.dropWhile isPySpace with
      | '"' :: r2 =>
        let fs := r2.takeWhile (fun c => c ≠ '"')
        let rest := r2.dropWhile (fun c => c ≠ '"')
        if fs.isEmpty then none
        else
          match rest with
          | '"' :: _ => some fs
          | _ => none
      | _ => none
    | _ => none

/-- `re.search` for the feedback pattern: leftmost position where it matches. -/
def feedbackSearch : List Char → Option (List Char)
  | [] => none
  | l@(_ :: t) =>
    match feedbackAt l with
    | some f => some f
    | none => feedbackSearch t

/-- Update of a Python dict under assignment: an existing key keeps its
position and takes the new value, a fresh key is appended. -/
def dictInsert (kvs : List (String × Json)) (k : String) (v : Json) :
    List (String × Json) :=
  if kvs.any (fun p => p.1 == k) then
    kvs.map (fun p => if p.1 == k then (k, v) else p)
  else kvs ++ [(k, v)]

/-- Build a Python dict from parsed members in order (duplicate keys: last
value wins). -/
def pyDict (l : List (String × Json)) : List (String × Json) :=
  l.foldl (fun d p => dictInsert d p.1 p.2) []

/-- Whitespace the JSON grammar allows between tokens. -/
def jsonWs (c : Char) : Bool :=
  c == ' ' || c == '\t' || c == '\n' || c == '\r'

/-- Body of a JSON string after the opening quote: content characters and the
remainder after the closing quote.  Escapes cover the forms the program
round-trips; unescaped control characters are rejected as `json.loads` does
in strict mode. -/
def parseStringBody : List Char → Option (List Char × List Char)
  | [] => none
  | '"' :: rest => some ([], rest)
  | '\\' :: e :: rest =>
    (match e with
     | '"' => some '"'
     | '\\' => some '\\'
     | '/' => some '/'
     | 'b' => some '\x08'
     | 'f' => some '\x0c'
     | 'n' => some '\n'
     | 'r' => some '\r'
     | 't' => some '\t'
     | _ => none).bind fun c =>
      (parseStringBody rest).map fun (pr : List Char × List Char) =>
        (c :: pr.1, pr.2)
  | c :: rest =>
    if c.toNat < 32 then none
    else (parseStringBody rest).map fun pr => (c :: pr.1, pr.2)

/-- A JSON integer literal (optional minus, no leading zeros); fractional or
exponent forms fall outside the fragment this program exchanges and make the
parse fail. -/
def parseIntTok (l : List Char) : Option (Int × List Char) :=
  let core : List Char → Option (Nat × List Char) := fun m =>
    let ds := m.takeWhile Char.isDigit
    let rest := m.dropWhile Char.isDigit
    if ds.isEmpty then none
    else if ds.length > 1 && ds.headD '0' == '0' then none
    else
      match rest with
      | '.' :: _ => none
      | 'e' :: _ => none
      | 'E' :: _ => none
      | _ => some (natOfDigits ds, rest)
  match l with
  | '-' :: r => (core r).map fun pr => (-(pr.1 : Int), pr.2)
  | _ => (core l).map fun pr => ((pr.1 : Int), pr.2)

mutual

/-- Parse one JSON value (fuelled recursion; fuel exceeds input length). -/
def parseVal (fuel : Nat) (l : List Char) : Option (Json × List Char) :=
  match fuel with
  | 0 => none
  | fl + 1 =>
    match l.dropWhile jsonWs with
    | '\x7b' :: r =>
      match r.dropWhile jsonWs with
      | '\x7d' :: rest => some (Json.obj [], rest)
      | _ => (parseMembers fl r).map fun pr => (Json.obj (pyDict pr.1), pr.2)
    | '[' :: r =>
      match r.dropWhile jsonWs with
      | ']' :: rest => some (Json.arr [], rest)
      | _ => (parseItems fl r).map fun pr => (Json.arr pr.1, pr.2)
    | '"' :: r =>
      (parseStringBody r).map fun pr => (Json.str (String.mk pr.1), pr.2)
    | 't' :: 'r' :: 'u' :: 'e' :: rest => some (Json.bool true, rest)
    | 'f' :: 'a' :: 'l' :: 's' :: 'e' :: rest => some (Json.bool false, rest)
    | 'n' :: 'u' :: 'l' :: 'l' :: rest => some (Json.null, rest)
    | m => (parseIntTok m).map fun pr => (Json.num pr.1, pr.2)

/-- Parse the members of a JSON object after the opening brace (at least
one `key : value`, comma separated, up to the closing brace). -/
def parseMembers (fuel : Nat) (l : List Char) :
    Option (List (String × Json) × List Char) :=
  match fuel with
  | 0 => none
  | fl + 1 =>
    match l.dropWhile jsonWs with
    | '"' :: r =>
      (parseStringBody r).bind fun kr =>
        match kr.2.dropWhile jsonWs with
        | ':' :: r2 =>
          (parseVal fl r2).bind fun vr =>
            match vr.2.dropWhile jsonWs with
            | ',' :: r4 =>
              (parseMembers fl r4).map fun mr =>
                ((String.mk kr.1, vr.1) :: mr.1, mr.2)
            | '\x7d' :: rest => some ([(String.mk kr.1, vr.1)], rest)
            | _ => none
        | _ => none
    | _ => none

/-- Parse the items of a JSON array after the opening bracket (at least one
value, comma separated, up to the closing bracket). -/
def parseItems (fuel : Nat) (l : List Char) :
    Option (List Json × List Char) :=
  match fuel with
  | 0 => none
  | fl + 1 =>
    (parseVal fl l).bind fun vr =>
      match vr.2.dropWhile jsonWs with
      | ',' :: r => (parseItems fl r).map fun ir => (vr.1 :: ir.1, ir.2)
      | ']' :: rest => some ([vr.1], rest)
      | _ => none

end

/-- Python `json.loads`: a single JSON value with nothing but whitespace
around it. -/
def jsonLoads (l : List Char) : Option Json :=
  (parseVal (l.length + 1) l).bind fun pr =>
    if (pr.2.dropWhile jsonWs).isEmpty then some pr.1 else none

/-- Lines 141 to 144 of `app.py`: strip the response, and when it is wrapped
in a markdown code fence remove the seven-character opener and the
three-character closer and strip again (`json_match[7:-3].strip()`). -/
def fenceStrip (raw : List Char) : List Char :=
  let j := pyStrip raw
  if beginsWith j "```json".toList && endsWithL j "```".toList then
    pyStrip ((j.take (j.length - 3)).drop 7)
  else j

/-- The brace test of line 147: the processed text starts with an opening
brace and ends with a closing one. -/
def braceShaped (j : List Char) : Bool :=
  beginsWith j ['\x7b'] && endsWithL j ['\x7d']

/-- Lines 140 to 176 of `app.py`: the layered interpretation of a raw LLM
response.  Fence strip, then direct JSON parse when the text is
brace-shaped (the parsed dict is returned as is; a parse error falls back
to regex with per-field defaults), otherwise regex extraction when both
patterns match, otherwise the last-resort record. -/
def interpretL (raw : List Char) : Json :=
  let j := fenceStrip raw
  if braceShaped j then
    match jsonLoads j with
    | some v => v
    | none =>
      Json.obj
        [("score", Json.num ((scoreSearch raw).getD 50 : Nat)),
         ("feedback",
          Json.str ((feedbackSearch raw).map String.mk |>.getD
            "Failed to parse Claude\x27s response."))]
  else
    match scoreSearch raw, feedbackSearch raw with
    | some n, some f =>
      Json.obj [("score", Json.num (n : Nat)), ("feedback", Json.str (String.mk f))]
    | _, _ =>
      Json.obj
        [("score", Json.num 50),
         ("feedback",
          Json.str ("Analysis could not be processed properly. Here\x27s the raw response: "
            ++ String.mk (raw.take 200) ++ "..."))]

/-- Interpretation over a Lean string. -/
def interpret (raw : String) : Json :=
  interpretL raw.data

/-- Field access on an interpretation result (`result["score"]` and the
like); the keys of a parsed dict are unique, so the first binding is the
binding. -/
def jLookup (j : Json) (k : String) : Option Json :=
  match j with
  | Json.obj kvs => (kvs.find? (fun p => p.1 == k)).map (fun p => p.2)
  | _ => none

/-- Lines 121 to 183 of `app.py`: one component analysis.  The LLM call is
abstracted as its outcome; on success the response text is interpreted, on
any exception the error is reported through `st.error` (modelled as the
emitted message list) and the sentinel record is returned. -/
def analyze_component (component : String) (call : Except String String) :
    Json × List String :=
  match call with
  | Except.ok response_text => (interpretL response_text.data, [])
  | Except.error e =>
    (Json.obj
       [("score", Json.num 0),
        ("feedback",
         Json.str ("Failed to analyze " ++ component ++ ". Please try again."))],
     ["Error analyzing " ++ component ++ ": " ++ e])

/-- Last index at which a character occurs (Python `str.rfind`). -/
def lastIdx (c : Char) (l : List Char) : Option Nat :=
  (l.foldl (fun acc p => (acc.1 + 1, if p == c then some acc.1 else acc.2))
    ((0 : Nat), (none : Option Nat))).2

/-- The extension part of `os.path.splitext`: the suffix from the last dot,
provided some earlier character of the base name is not a dot. -/
def splitextExt (l : List Char) : List Char :=
  let base := ((lastIdx '/' l).map (fun i => i + 1)).getD 0
  match lastIdx '.' l with
  | none => []
  | some d =>
    if base ≤ d && ((l.drop base).take (d - base)).any (fun c => c ≠ '.') then
      l.drop d
    else []

/-- Line 78 of `app.py`: `os.path.splitext(...)[1].lower()`. -/
def fileExtension (name : String) : String :=
  String.mk ((splitextExt name.data).map Char.toLower)

/-- A document as the Extractor sees it: the uploaded name, and the outcome
each format library would produce on its bytes (pages of text for PyPDF2,
shape texts per slide for python-pptx, paragraph texts for python-docx); an
`error` value stands for the exception that library raises on those bytes. -/
structure UploadedFile where
  name : String
  pdfPages : Except String (List String)
  pptxSlides : Except String (List (List String))
  docxParas : Except String (List String)

/-- Lines 87 to 93 of `app.py`: page texts joined under numbered page
headers. -/
def renderPdf (pages : List String) : String :=
  (pages.enum.foldl
    (fun acc p =>
      acc ++ "\n--- Page " ++ toString (p.1 + 1) ++ " ---\n" ++ p.2) "")

/-- Lines 95 to 101 of `app.py`: per slide, a numbered header then every
shape text that is non-empty, one per line. -/
def renderPptx (slides : List (List String)) : String :=
  (slides.enum.foldl
    (fun acc sl =>
      sl.2.foldl
        (fun a sh => if sh ≠ "" then a ++ sh ++ "\n" else a)
        (acc ++ "\n--- Slide " ++ toString (sl.1 + 1) ++ " ---\n")) "")

/-- Lines 103 to 106 of `app.py`: paragraphs joined with newlines. -/
def renderDocx (paras : List String) : String :=
  paras.foldl (fun a p => a ++ p ++ "\n") ""

/-- Lines 76 to 118 of `app.py`: dispatch on the lower-cased extension.  The
`try` block has a `finally` for the temp file but no handler, so a library
failure in the pdf, pptx or docx branch propagates; the ppt branch and the
default branch return fixed placeholder strings. -/
def extract_text_from_file (f : UploadedFile) : Except String String :=
  let ext := fileExtension f.name
  if ext = ".pdf" then f.pdfPages.map renderPdf
  else if ext = ".pptx" then f.pptxSlides.map renderPptx
  else if ext = ".docx" then f.docxParas.map renderDocx
  else if ext = ".ppt" then
    Except.ok "PPT format has limited extraction capabilities. Consider converting to PPTX for better results."
  else Except.ok ("Unsupported file format: " ++ ext)

/-- Line 257 of `app.py`: the average of the result scores, under exact
rational division (Python divides the integer sum by the count). -/
def avg_score (scores : List Int) : ℚ :=
  ((scores.sum : ℚ) / (scores.length : ℚ))

/-- Line 265 of `app.py`: the count of scores at least 80. -/
def strengths (scores : List Int) : Nat :=
  (scores.filter (fun s => 80 ≤ s)).length

/-- Line 269 of `app.py`: the count of scores below 70. -/
def weaknesses (scores : List Int) : Nat :=
  (scores.filter (fun s => s < 70)).length

/-- The score vector of the boundary-handling test in the specification. -/
def specScores : List Int := [95, 85, 72, 65, 50, 90, 60, 78, 82, 55]

/-- A response wrapped in a markdown code fence, as the model emits it. -/
def wrapFence (s : String) : String :=
  "```json\n" ++ s ++ "\n```"

theorem beginsWith_append_self (p l : List Char) :
    beginsWith (p ++ l) p = true := by
  induction p with
  | nil => cases l <;> rfl
  | cons c ps ih => simp [beginsWith, ih]

theorem fenceStrip_of_brace (l : List Char)
    (h : beginsWith (pyStrip l) ['\x7b'] = true) :
    fenceStrip l = pyStrip l := by
  have hb : beginsWith (pyStrip l) "```json".toList = false := by
    cases hl : pyStrip l with
    | nil => rw [hl] at h; simp [beginsWith] at h
    | cons c t =>
      rw [hl] at h
      have hc : c = '\x7b' := by simpa [beginsWith] using h
      subst hc
      rfl
  simp only [fenceStrip]
  rw [hb]
  simp

theorem interpretL_json_ok (l : List Char) (v : Json)
    (h1 : braceShaped (fenceStrip l) = true)
    (h2 : jsonLoads (fenceStrip l) = some v) :
    interpretL l = v := by
  simp [interpretL, h1, h2]

theorem interpretL_json_err (l : List Char)
    (h1 : braceShaped (fenceStrip l) = true)
    (h2 : jsonLoads (fenceStrip l) = none) :
    interpretL l = Json.obj
      [("score", Json.num ((scoreSearch l).getD 50 : Nat)),
       ("feedback",
        Json.str ((feedbackSearch l).map String.mk |>.getD
          "Failed to parse Claude\x27s response."))] := by
  simp [interpretL, h1, h2]

theorem interpretL_regex (l : List Char) (n : Nat) (f : List Char)
    (h1 : braceShaped (fenceStrip l) = false)
    (hs : scoreSearch l = some n)
    (hf : feedbackSearch l = some f) :
    interpretL l =
      Json.obj [("score", Json.num (n : Nat)),
                ("feedback", Json.str (String.mk f))] := by
  simp [interpretL, h1, hs, hf]

theorem interpretL_lastResort (l : List Char)
    (h1 : braceShaped (fenceStrip l) = false)
    (h : (scoreSearch l).isNone ∨ (feedbackSearch l).isNone) :
    interpretL l = Json.obj
      [("score", Json.num 50),
       ("feedback",
        Json.str ("Analysis could not be processed properly. Here\x27s the raw response: "
          ++ String.mk (l.take 200) ++ "..."))] := by
  cases hsc : scoreSearch l with
  | none =>
    cases hfb : feedbackSearch l with
    | none => simp [interpretL, h1, hsc, hfb]
    | some f => simp [interpretL, h1, hsc, hfb]
  | some n =>
    cases hfb : feedbackSearch l with
    | none => simp [interpretL, h1, hsc, hfb]
    | some f => rw [hsc, hfb] at h; simp at h

/-- Claim C5: interpreting the well-formed JSON string with score 87 and
feedback Good traction yields exactly those two fields, and in general any
response whose fence-stripped text is brace-delimited and parses as JSON is
interpreted as exactly the parsed object, its fields used directly. -/
theorem interpret_wellformed_json :
    interpret "\x7b\"score\": 87, \"feedback\": \"Good traction\"\x7d" =
      Json.obj [("score", Json.num 87), ("feedback", Json.str "Good traction")] ∧
    ∀ (raw : String) (v : Json),
      braceShaped (fenceStrip raw.data) = true →
      jsonLoads (fenceStrip raw.data) = some v →
      interpret raw = v :=
  ⟨rfl, fun _ v h1 h2 => interpretL_json_ok _ v h1 h2⟩

/-- Witness for claim C5 at a concrete parseable response. -/
theorem interpret_wellformed_json_witness :
    interpret "\x7b\"score\": 64, \"feedback\": \"solid\"\x7d" =
      Json.obj [("score", Json.num 64), ("feedback", Json.str "solid")] :=
  interpret_wellformed_json.2 "\x7b\"score\": 64, \"feedback\": \"solid\"\x7d"
    (Json.obj [("score", Json.num 64), ("feedback", Json.str "solid")])
    rfl rfl

/-- Claim C10: a brace-delimited response that parses as JSON is returned
verbatim with no validation: a missing score key stays missing, and a score
of 999, of -3, or given as a string is passed through unchanged. -/
theorem interpret_json_verbatim :
    (∀ (raw : String) (v : Json),
      braceShaped (fenceStrip raw.data) = true →
      jsonLoads (fenceStrip raw.data) = some v →
      interpret raw = v) ∧
    jLookup (interpret "\x7b\"feedback\": \"no score here\"\x7d") "score" = none ∧
    jLookup (interpret "\x7b\"score\": 999, \"feedback\": \"big\"\x7d") "score" =
      some (Json.num 999) ∧
    jLookup (interpret "\x7b\"score\": -3, \"feedback\": \"bad\"\x7d") "score" =
      some (Json.num (-3)) ∧
    jLookup (interpret "\x7b\"score\": \"high\", \"feedback\": \"word\"\x7d") "score" =
      some (Json.str "high") :=
  ⟨fun _ v h1 h2 => interpretL_json_ok _ v h1 h2, rfl, rfl, rfl, rfl⟩

/-- Witness for claim C10 at a concrete parseable response. -/
theorem interpret_json_verbatim_witness :
    interpret "\x7b\"score\": 1, \"feedback\": \"tiny\"\x7d" =
      Json.obj [("score", Json.num 1), ("feedback", Json.str "tiny")] :=
  interpret_json_verbatim.1 "\x7b\"score\": 1, \"feedback\": \"tiny\"\x7d"
    (Json.obj [("score", Json.num 1), ("feedback", Json.str "tiny")])
    rfl rfl

/-- Counterexample to claim C1: a response that parses as JSON with score 150
makes `analyze_component` return a record whose score is out of the range
0 to 100. -/
theorem score_range_counterexample :
    jLookup (analyze_component "overview"
        (Except.ok "\x7b\"score\": 150, \"feedback\": \"fine\"\x7d")).1 "score" =
      some (Json.num 150) ∧ ¬((150 : Int) ≤ 100) :=
  ⟨rfl, by norm_num⟩

/-- Claim C1 as amended: the score is present and within 0 to 100 whenever
the direct JSON-parse layer does not fire and no regex score match exceeds
100; the JSON layer returns the parsed object unvalidated and the regex
layer passes the matched integer through unclamped, so the bound can fail
there. -/
theorem interpret_score_range_amended (raw : String)
    (h1 : (braceShaped (fenceStrip raw.data) &&
           (jsonLoads (fenceStrip raw.data)).isSome) = false)
    (h2 : (scoreSearch raw.data).getD 0 ≤ 100) :
    ∃ k : Nat, jLookup (interpret raw) "score" = some (Json.num (k : Nat)) ∧
      k ≤ 100 := by
  by_cases hb : braceShaped (fenceStrip raw.data) = true
  · have hj : jsonLoads (fenceStrip raw.data) = none := by
      rw [hb] at h1
      simp at h1
      exact Option.not_isSome_iff_eq_none.mp (by simp [h1])
    refine ⟨(scoreSearch raw.data).getD 50, ?_, ?_⟩
    · rw [show interpret raw = _ from interpretL_json_err raw.data hb hj]
      simp [jLookup]
    · cases hsc : scoreSearch raw.data with
      | none => simp
      | some n => rw [hsc] at h2; simpa using h2
  · have hb' : braceShaped (fenceStrip raw.data) = false := by
      simpa using hb
    cases hsc : scoreSearch raw.data with
    | none =>
      refine ⟨50, ?_, by norm_num⟩
      rw [show interpret raw = _ from
        interpretL_lastResort raw.data hb' (Or.inl (by simp [hsc]))]
      simp [jLookup]
    | some n =>
      cases hfb : feedbackSearch raw.data with
      | none =>
        refine ⟨50, ?_, by norm_num⟩
        rw [show interpret raw = _ from
          interpretL_lastResort raw.data hb' (Or.inr (by simp [hfb]))]
        simp [jLookup]
      | some f =>
        refine ⟨n, ?_, by rw [hsc] at h2; simpa using h2⟩
        rw [show interpret raw = _ from interpretL_regex raw.data n f hb' hsc hfb]
        simp [jLookup]

/-- Witness for the amended claim C1 at a concrete unparseable response. -/
theorem interpret_score_range_amended_witness :
    ∃ k : Nat, jLookup (interpret "no recoverable structure") "score" =
      some (Json.num (k : Nat)) ∧ k ≤ 100 :=
  interpret_score_range_amended "no recoverable structure" rfl (by decide)

/-- Claim C2: any exception during the LLM call is reported through the
observability collaborator and converted to the sentinel record with score 0
and the fixed failure feedback, never propagated. -/
theorem analyze_component_transport_failure (component e : String) :
    analyze_component component (Except.error e) =
      (Json.obj
         [("score", Json.num 0),
          ("feedback",
           Json.str ("Failed to analyze " ++ component ++ ". Please try again."))],
       ["Error analyzing " ++ component ++ ": " ++ e]) := rfl

/-- Claim C7: malformed text carrying both a score pattern and a feedback
pattern is interpreted from those two matches (42 and Needs work in the
concrete case), and in general whenever the response does not parse as
brace-delimited JSON but both regex patterns match, the result is built from
the matched values. -/
theorem interpret_regex_extraction :
    interpret "In prose: \"score\": 42 and \"feedback\": \"Needs work\" appear." =
      Json.obj [("score", Json.num 42), ("feedback", Json.str "Needs work")] ∧
    ∀ (raw : String) (n : Nat) (f : List Char),
      (braceShaped (fenceStrip raw.data) &&
        (jsonLoads (fenceStrip raw.data)).isSome) = false →
      scoreSearch raw.data = some n →
      feedbackSearch raw.data = some f →
      interpret raw =
        Json.obj [("score", Json.num (n : Nat)),
                  ("feedback", Json.str (String.mk f))] := by
  refine ⟨rfl, fun raw n f h1 hs hf => ?_⟩
  by_cases hb : braceShaped (fenceStrip raw.data) = true
  · have hj : jsonLoads (fenceStrip raw.data) = none := by
      rw [hb] at h1
      simp at h1
      exact Option.not_isSome_iff_eq_none.mp (by simp [h1])
    rw [show interpret raw = _ from interpretL_json_err raw.data hb hj]
    simp [hs, hf]
  · exact interpretL_regex raw.data n f (by simpa using hb) hs hf

/-- Witness for claim C7 at a concrete prose response. -/
theorem interpret_regex_extraction_witness :
    interpret "thin deck, \"score\": 7, \"feedback\": \"looks thin\" overall" =
      Json.obj [("score", Json.num 7), ("feedback", Json.str "looks thin")] :=
  interpret_regex_extraction.2
    "thin deck, \"score\": 7, \"feedback\": \"looks thin\" overall"
    7 "looks thin".data rfl rfl rfl

theorem pyStrip_pad (l : List Char) :
    pyStrip ('\n' :: (l ++ ['\n'])) = pyStrip l := by
  unfold pyStrip
  rw [List.dropWhile_cons_of_pos (by rfl : isPySpace '\n' = true)]
  rw [List.dropWhile_append]
  by_cases hd : (l.dropWhile isPySpace).isEmpty
  · rw [if_pos hd]
    have he : l.dropWhile isPySpace = [] := by simpa using hd
    rw [he]
    rfl
  · rw [if_neg hd]
    rw [List.reverse_append]
    simp only [List.reverse_cons, List.reverse_nil, List.nil_append,
      List.singleton_append]
    rw [List.dropWhile_cons_of_pos (by rfl : isPySpace '\n' = true)]

theorem pyStrip_no_space (a b : Char) (ha : isPySpace a = false)
    (hb : isPySpace b = false) (m : List Char) :
    pyStrip (a :: (m ++ [b])) = a :: (m ++ [b]) := by
  unfold pyStrip
  rw [List.dropWhile_cons_of_neg (by simp [ha])]
  rw [show (a :: (m ++ [b])).reverse = b :: (m.reverse ++ [a]) by
    simp [List.reverse_cons, List.reverse_append]]
  rw [List.dropWhile_cons_of_neg (by simp [hb])]
  simp [List.reverse_cons, List.reverse_append]

theorem wrap_shape (l : List Char) :
    '`' :: '`' :: '`' :: 'j' :: 's' :: 'o' :: 'n' :: '\n' ::
      (l ++ ['\n', '`', '`', '`']) =
      '`' :: (('`' :: '`' :: 'j' :: 's' :: 'o' :: 'n' :: '\n' ::
        (l ++ ['\n', '`', '`'])) ++ ['`']) := by
  simp [List.append_assoc]

theorem fenceStrip_wrap (l : List Char) :
    fenceStrip ('`' :: '`' :: '`' :: 'j' :: 's' :: 'o' :: 'n' :: '\n' ::
      (l ++ ['\n', '`', '`', '`'])) = pyStrip l := by
  have hps : pyStrip ('`' :: '`' :: '`' :: 'j' :: 's' :: 'o' :: 'n' :: '\n' ::
      (l ++ ['\n', '`', '`', '`'])) =
      '`' :: '`' :: '`' :: 'j' :: 's' :: 'o' :: 'n' :: '\n' ::
      (l ++ ['\n', '`', '`', '`']) := by
    rw [wrap_shape l]
    exact pyStrip_no_space '`' '`' rfl rfl _
  have hbw : beginsWith ('`' :: '`' :: '`' :: 'j' :: 's' :: 'o' :: 'n' :: '\n' ::
      (l ++ ['\n', '`', '`', '`'])) "```json".toList = true := by
    simp [beginsWith]
  have hrev : ('`' :: '`' :: '`' :: 'j' :: 's' :: 'o' :: 'n' :: '\n' ::
      (l ++ ['\n', '`', '`', '`'])).reverse =
      '`' :: '`' :: '`' :: '\n' ::
        (l.reverse ++ ['\n', 'n', 'o', 's', 'j', '`', '`', '`']) := by
    simp [List.reverse_cons, List.reverse_append]
  have hew : endsWithL ('`' :: '`' :: '`' :: 'j' :: 's' :: 'o' :: 'n' :: '\n' ::
      (l ++ ['\n', '`', '`', '`'])) "```".toList = true := by
    unfold endsWithL
    rw [hrev]
    simp [beginsWith]
  unfold fenceStrip
  rw [hps]
  simp only [hbw, hew, Bool.and_self, if_true]
  have hlen : ('`' :: '`' :: '`' :: 'j' :: 's' :: 'o' :: 'n' :: '\n' ::
      (l ++ ['\n', '`', '`', '`'])).length = l.length + 12 := by
    simp [List.length_cons, List.length_append]
  rw [hlen]
  have harith : l.length + 12 - 3 = l.length + 9 := by omega
  rw [harith]
  have hX : ('`' :: '`' :: '`' :: 'j' :: 's' :: 'o' :: 'n' :: '\n' ::
      (l ++ ['\n', '`', '`', '`'])) =
      ['`', '`', '`', 'j', 's', 'o', 'n', '\n'] ++ (l ++ ['\n', '`', '`', '`']) := rfl
  rw [hX, List.take_append_eq_append_take]
  rw [List.take_of_length_le (by simp)]
  have h8 : l.length + 9 - (['`', '`', '`', 'j', 's', 'o', 'n', '\n'] : List Char).length
      = l.length + 1 := by simp
  rw [h8, List.take_append_eq_append_take]
  rw [List.take_of_length_le (by omega : l.length ≤ l.length + 1)]
  have h1 : l.length + 1 - l.length = 1 := by omega
  rw [h1]
  have ht1 : (['\n', '`', '`', '`'] : List Char).take 1 = ['\n'] := rfl
  rw [ht1]
  rw [List.drop_append_eq_append_drop]
  have hd7 : (['`', '`', '`', 'j', 's', 'o', 'n', '\n'] : List Char).drop 7 = ['\n'] := rfl
  rw [hd7]
  have h0 : 7 - (['`', '`', '`', 'j', 's', 'o', 'n', '\n'] : List Char).length = 0 := by
    simp
  rw [h0, List.drop_zero]
  exact pyStrip_pad l

/-- Claim C6: wrapping a well-formed JSON response in a json markdown fence
does not change the interpretation: the fence markers are stripped and the
same parsed object is returned. -/
theorem interpret_fence_wrap (raw : String) (v : Json)
    (h1 : braceShaped (pyStrip raw.data) = true)
    (h2 : jsonLoads (pyStrip raw.data) = some v) :
    interpret (wrapFence raw) = interpret raw := by
  have hb : beginsWith (pyStrip raw.data) ['\x7b'] = true := by
    have hq := h1
    simp [braceShaped] at hq
    exact hq.1
  have hfs : fenceStrip raw.data = pyStrip raw.data :=
    fenceStrip_of_brace raw.data hb
  have hraw : interpretL raw.data = v :=
    interpretL_json_ok raw.data v (by rw [hfs]; exact h1) (by rw [hfs]; exact h2)
  have hWd : (wrapFence raw).data =
      '`' :: '`' :: '`' :: 'j' :: 's' :: 'o' :: 'n' :: '\n' ::
        (raw.data ++ ['\n', '`', '`', '`']) := rfl
  have hwfs : fenceStrip ((wrapFence raw).data) = pyStrip raw.data := by
    rw [hWd]
    exact fenceStrip_wrap raw.data
  have hwrap : interpretL ((wrapFence raw).data) = v :=
    interpretL_json_ok ((wrapFence raw).data) v
      (by rw [hwfs]; exact h1) (by rw [hwfs]; exact h2)
  show interpretL ((wrapFence raw).data) = interpretL raw.data
  rw [hwrap, hraw]

/-- Witness for claim C6 at a concrete fenced response. -/
theorem interpret_fence_wrap_witness :
    interpret (wrapFence "\x7b\"score\": 12, \"feedback\": \"fair\"\x7d") =
      interpret "\x7b\"score\": 12, \"feedback\": \"fair\"\x7d" :=
  interpret_fence_wrap "\x7b\"score\": 12, \"feedback\": \"fair\"\x7d"
    (Json.obj [("score", Json.num 12), ("feedback", Json.str "fair")])
    rfl rfl

/-- Counterexample to claim C4: the response is brace-delimited but invalid
JSON and neither regex pattern matches, yet the feedback is the fixed
message with no truncated copy of the input embedded in it. -/
theorem fallback_feedback_counterexample :
    interpret "\x7boops\x7d" =
      Json.obj [("score", Json.num 50),
                ("feedback", Json.str "Failed to parse Claude\x27s response.")] ∧
    hasSub "Failed to parse Claude\x27s response.".data "\x7boops\x7d".data = false :=
  ⟨rfl, rfl⟩

/-- Claim C4 as amended: there are two degraded fallbacks.  When the
fence-stripped text is not brace-delimited and the regex layer does not find
both values, the result is score 50 with a feedback embedding the
200-character prefix of the raw input (even when exactly one of the two
values was found, that value is discarded).  When the text is
brace-delimited but fails JSON parsing, the result takes the regex-matched
score or 50 and the regex-matched feedback or a fixed message that embeds no
prefix of the input. -/
theorem degraded_fallback_amended (raw : String) :
    (braceShaped (fenceStrip raw.data) = false →
      ((scoreSearch raw.data).isNone ∨ (feedbackSearch raw.data).isNone) →
      interpret raw = Json.obj
        [("score", Json.num 50),
         ("feedback",
          Json.str ("Analysis could not be processed properly. Here\x27s the raw response: "
            ++ String.mk (raw.data.take 200) ++ "..."))]) ∧
    (braceShaped (fenceStrip raw.data) = true →
      jsonLoads (fenceStrip raw.data) = none →
      interpret raw = Json.obj
        [("score", Json.num ((scoreSearch raw.data).getD 50 : Nat)),
         ("feedback",
          Json.str ((feedbackSearch raw.data).map String.mk |>.getD
            "Failed to parse Claude\x27s response."))]) :=
  ⟨fun h1 h2 => interpretL_lastResort raw.data h1 h2,
   fun h1 h2 => interpretL_json_err raw.data h1 h2⟩

/-- Witness for the amended claim C4 at a concrete structureless response. -/
theorem degraded_fallback_amended_witness :
    interpret "just words" = Json.obj
      [("score", Json.num 50),
       ("feedback",
        Json.str ("Analysis could not be processed properly. Here\x27s the raw response: "
          ++ String.mk ("just words".data.take 200) ++ "..."))] :=
  (degraded_fallback_amended "just words").1 rfl (Or.inl rfl)

/-- Counterexample to claim C3: over the specification score vector the
count of scores at least 80 is 4 (95, 85, 90 and 82), not 3. -/
theorem summary_strengths_counterexample :
    strengths specScores = 4 ∧ (4 : Nat) ≠ 3 :=
  ⟨rfl, by decide⟩

/-- Claim C3 as amended: the specification vector yields mean 73.2,
strengths count 4 and weaknesses count 4, and a score lying exactly in the
interval from 70 inclusive to 80 exclusive counts toward neither total. -/
theorem summarize_metrics_amended :
    avg_score specScores = 73.2 ∧
    strengths specScores = 4 ∧
    weaknesses specScores = 4 ∧
    ∀ (x : Int) (l : List Int), 70 ≤ x → x < 80 →
      strengths (x :: l) = strengths l ∧ weaknesses (x :: l) = weaknesses l := by
  refine ⟨by norm_num [avg_score, specScores], rfl, rfl, fun x l h1 h2 => ?_⟩
  have hs : (decide (80 ≤ x)) = false := decide_eq_false (by omega)
  have hw : (decide (x < 70)) = false := decide_eq_false (by omega)
  constructor <;> simp [strengths, weaknesses, List.filter_cons, hs, hw]

/-- Witness for the amended claim C3 at the boundary score 75. -/
theorem summarize_metrics_amended_witness :
    strengths [(75 : Int)] = strengths [] ∧
    weaknesses [(75 : Int)] = weaknesses [] :=
  summarize_metrics_amended.2.2.2 75 [] (by decide) (by decide)

/-- Counterexample to claim C8: a pdf upload on which the pdf library fails
makes extraction propagate the failure instead of degrading to a
placeholder string. -/
theorem extract_propagates_counterexample :
    extract_text_from_file
      ⟨"deck.pdf", Except.error "EOF marker not found", Except.ok [], Except.ok []⟩ =
      Except.error "EOF marker not found" := rfl

/-- Claim C8 as amended: extraction returns a placeholder string without
failing for the legacy ppt format and for undeclared extensions, and for
pdf, pptx and docx it returns the rendered text when the format library
succeeds; a library failure on those three formats propagates as an error
rather than degrading. -/
theorem extract_degrade_amended (f : UploadedFile) :
    (fileExtension f.name = ".ppt" →
      extract_text_from_file f =
        Except.ok "PPT format has limited extraction capabilities. Consider converting to PPTX for better results.") ∧
    (fileExtension f.name ∉ [".pdf", ".pptx", ".docx", ".ppt"] →
      extract_text_from_file f =
        Except.ok ("Unsupported file format: " ++ fileExtension f.name)) ∧
    (∀ pages, fileExtension f.name = ".pdf" → f.pdfPages = Except.ok pages →
      extract_text_from_file f = Except.ok (renderPdf pages)) ∧
    (∀ e, fileExtension f.name = ".pdf" → f.pdfPages = Except.error e →
      extract_text_from_file f = Except.error e) ∧
    (∀ slides, fileExtension f.name = ".pptx" → f.pptxSlides = Except.ok slides →
      extract_text_from_file f = Except.ok (renderPptx slides)) ∧
    (∀ e, fileExtension f.name = ".pptx" → f.pptxSlides = Except.error e →
      extract_text_from_file f = Except.error e) ∧
    (∀ paras, fileExtension f.name = ".docx" → f.docxParas = Except.ok paras →
      extract_text_from_file f = Except.ok (renderDocx paras)) ∧
    (∀ e, fileExtension f.name = ".docx" → f.docxParas = Except.error e →
      extract_text_from_file f = Except.error e) := by
  refine ⟨fun h => by simp [extract_text_from_file, h],
    fun h => ?_,
    fun pages h hp => by simp [extract_text_from_file, h, hp, Except.map],
    fun e h hp => by simp [extract_text_from_file, h, hp, Except.map],
    fun slides h hp => by simp [extract_text_from_file, h, hp, Except.map],
    fun e h hp => by simp [extract_text_from_file, h, hp, Except.map],
    fun paras h hp => by simp [extract_text_from_file, h, hp, Except.map],
    fun e h hp => by simp [extract_text_from_file, h, hp, Except.map]⟩
  simp only [List.mem_cons, List.not_mem_nil, or_false, not_or] at h
  obtain ⟨h1, h2, h3, h4⟩ := h
  simp [extract_text_from_file, h1, h2, h3, h4]

/-- Witness for the amended claim C8 at a concrete legacy ppt upload. -/
theorem extract_degrade_amended_witness :
    extract_text_from_file
      ⟨"talk.ppt", Except.ok [], Except.ok [], Except.ok []⟩ =
      Except.ok "PPT format has limited extraction capabilities. Consider converting to PPTX for better results." :=
  (extract_degrade_amended
    ⟨"talk.ppt", Except.ok [], Except.ok [], Except.ok []⟩).1 rfl

/-- Claim C9: an upload whose extension is none of pdf, pptx, docx or ppt is
extracted to the fixed unsupported-format placeholder naming that extension,
a non-empty string, without failing. -/
theorem extract_unsupported_ext (f : UploadedFile)
    (h : fileExtension f.name ∉ [".pdf", ".pptx", ".docx", ".ppt"]) :
    extract_text_from_file f =
      Except.ok ("Unsupported file format: " ++ fileExtension f.name) ∧
    ("Unsupported file format: " ++ fileExtension f.name) ≠ "" := by
  constructor
  · simp only [List.mem_cons, List.not_mem_nil, or_false, not_or] at h
    obtain ⟨h1, h2, h3, h4⟩ := h
    simp [extract_text_from_file, h1, h2, h3, h4]
  · intro hEq
    have hdata := congrArg String.data hEq
    rw [String.data_append] at hdata
    simp at hdata

/-- Witness for claim C9 at a concrete txt upload. -/
theorem extract_unsupported_ext_witness :
    extract_text_from_file
      ⟨"notes.txt", Except.ok [], Except.ok [], Except.ok []⟩ =
      Except.ok ("Unsupported file format: " ++
        fileExtension "notes.txt") ∧
    ("Unsupported file format: " ++ fileExtension "notes.txt") ≠ "" :=
  extract_unsupported_ext
    ⟨"notes.txt", Except.ok [], Except.ok [], Except.ok []⟩ (by decide)

end PitchDeckAssessment
